import Mathlib

/-!
# CollabBoard — verification of the object-sync, coalescing, cursor and AI layers

Shallow embedding of the client logic of the CollabBoard whiteboard:
* `useBoardObjects.ts` — typed board objects, `addObject`, `updateObject`;
* `BoardPage` — debounced geometry-update buffer, AI action executor,
  per-tool creation defaults;
* `useCursors.ts` — leading-edge cursor throttle and snapshot handling;
* `usePresence.ts` — presence staleness filter;
* `WhiteboardCanvas` — pointer-anchored wheel zoom.

JavaScript numbers are embedded as `Int` where only comparison and merge
arithmetic occurs (timestamps, coordinates), and as `Rat` for the zoom
computation, which divides by the scale factor.  `undefined` / omitted
fields become `Option`.
-/

namespace CollabBoard

/-- The closed object-type enum of `BoardObject.type`. -/
inductive ObjType
  | stickyNote | rectangle | circle | line | arrow | text | frame | connector
deriving DecidableEq, Repr

/-- `BoardObject` from `useBoardObjects.ts` (lines 8–25): one stored board
document.  Optional interface fields are `Option`. -/
structure BoardObject where
  id : String
  type : ObjType
  x : Int
  y : Int
  width : Int
  height : Int
  rotation : Int
  text : Option String
  color : String
  fontSize : Option Int
  createdBy : String
  createdAt : Int
  updatedAt : Int
  fromId : Option String
  toId : Option String
  points : Option (List Int)
deriving DecidableEq, Repr

/-- A `Partial<BoardObject>` update payload: every mutable field is optional;
`none` means the field is absent from the JavaScript object literal.
`strokeWidth` appears here because `handleObjectUpdate` tests for it even
though the stored `BoardObject` interface does not declare it. -/
structure ObjUpdate where
  x : Option Int := none
  y : Option Int := none
  width : Option Int := none
  height : Option Int := none
  rotation : Option Int := none
  text : Option String := none
  color : Option String := none
  fontSize : Option Int := none
  strokeWidth : Option Int := none
  points : Option (List Int) := none
  updatedAt : Option Int := none
deriving DecidableEq, Repr

/-- A `Partial<BoardObject> & \x7b type \x7d` creation request, the argument
shape of `addObject` / `addObjects`. -/
structure ObjCreate where
  id : Option String := none
  type : ObjType
  x : Option Int := none
  y : Option Int := none
  width : Option Int := none
  height : Option Int := none
  rotation : Option Int := none
  text : Option String := none
  color : Option String := none
  fontSize : Option Int := none
  strokeWidth : Option Int := none
  fromId : Option String := none
  toId : Option String := none
  points : Option (List Int) := none
deriving DecidableEq, Repr

/-- Association-list store: the remote object collection of one board,
documents keyed by object id. -/
abbrev ObjStore := List (String × BoardObject)

/-- Document lookup by key. -/
def getA (k : String) (m : List (String × α)) : Option α :=
  match m with
  | [] => none
  | (k2, v) :: rest => if k2 = k then some v else getA k rest

/-- Keyed upsert (`Map.set` / Firestore `setDoc`): replaces any entry with
the same key and appends the new binding. -/
def setA (k : String) (v : α) (m : List (String × α)) : List (String × α) :=
  (m.filter (fun kv => kv.1 ≠ k)) ++ [(k, v)]

/-- The payload actually written by `updateObject`
(`useBoardObjects.ts` lines 77–80): the spread
`\x7b ...updates, updatedAt: Date.now() \x7d`, so `updatedAt` is always
stamped last and wins over any caller-supplied value. -/
def stampPayload (u : ObjUpdate) (now : Int) : ObjUpdate :=
  { u with updatedAt := some now }

/-- Firestore `updateDoc` field merge: each field named in the payload
replaces the stored value; absent fields keep the stored value. -/
def mergeDoc (o : BoardObject) (u : ObjUpdate) : BoardObject :=
  { o with
    x := u.x.getD o.x
    y := u.y.getD o.y
    width := u.width.getD o.width
    height := u.height.getD o.height
    rotation := u.rotation.getD o.rotation
    text := match u.text with | some t => some t | none => o.text
    color := u.color.getD o.color
    fontSize := match u.fontSize with | some f => some f | none => o.fontSize
    points := match u.points with | some p => some p | none => o.points
    updatedAt := u.updatedAt.getD o.updatedAt }

/-- `updateObject(id, updates)` (`useBoardObjects.ts` lines 75–81):
a single-document `updateDoc` with the stamped payload.  Firestore rejects
an update of a nonexistent document, modelled as `none`. -/
def updateObject (s : ObjStore) (id : String) (u : ObjUpdate) (now : Int) :
    Option ObjStore :=
  match getA id s with
  | none => none
  | some o => some (setA id (mergeDoc o (stampPayload u now)) s)

/-- The full document built by `addObject` (`useBoardObjects.ts` lines
51–70): JavaScript `obj.id || uuidv4()` falls back to the fresh token on a
missing or empty id, every defaultable field gets its fixed default, and
`createdBy`/`createdAt`/`updatedAt` are stamped.  `freshId` stands for the
`uuidv4()` call, `now` for `Date.now()`. -/
def buildFullObj (obj : ObjCreate) (userId : String) (now : Int)
    (freshId : String) : BoardObject :=
  { id := if obj.id.getD "" = "" then freshId else obj.id.getD ""
    type := obj.type
    x := obj.x.getD 0
    y := obj.y.getD 0
    width := obj.width.getD 200
    height := obj.height.getD 200
    rotation := obj.rotation.getD 0
    text := some (obj.text.getD "")
    color := obj.color.getD "#FFEB3B"
    fontSize := some (obj.fontSize.getD 16)
    createdBy := userId
    createdAt := now
    updatedAt := now
    fromId := obj.fromId
    toId := obj.toId
    points := obj.points }

/-- `addObject` (`useBoardObjects.ts` lines 49–73): builds the full
document, writes it with `setDoc` keyed by its id, and returns that id. -/
def addObject (s : ObjStore) (obj : ObjCreate) (userId : String) (now : Int)
    (freshId : String) : ObjStore × String :=
  let o := buildFullObj obj userId now freshId
  (setA o.id o s, o.id)

/-! ## High-frequency update coalescing (`BoardPage`, part_002 lines 28–85) -/

/-- A remote write issued by the update path: either an immediate
single-document `updateObject`, or one debounced `updateObjects` batch. -/
inductive RemoteWrite
  | single (id : String) (u : ObjUpdate) (now : Int)
  | batch (entries : List (String × ObjUpdate))
deriving DecidableEq, Repr

/-- Object spread `\x7b ...old, ...new \x7d` on update payloads: a field
present in `new` wins, otherwise `old`'s value (if any) survives. -/
def mergeUpd (old new : ObjUpdate) : ObjUpdate :=
  { x := new.x <|> old.x
    y := new.y <|> old.y
    width := new.width <|> old.width
    height := new.height <|> old.height
    rotation := new.rotation <|> old.rotation
    text := new.text <|> old.text
    color := new.color <|> old.color
    fontSize := new.fontSize <|> old.fontSize
    strokeWidth := new.strokeWidth <|> old.strokeWidth
    points := new.points <|> old.points
    updatedAt := new.updatedAt <|> old.updatedAt }

/-- `isPositionUpdate` from `handleObjectUpdate` (part_002 lines 78–79):
a geometry key is present and none of text/color/strokeWidth is. -/
def isPositionUpdate (u : ObjUpdate) : Bool :=
  (u.x.isSome || u.y.isSome || u.width.isSome || u.height.isSome
      || u.rotation.isSome)
    && !u.text.isSome && !u.color.isSome && !u.strokeWidth.isSome

/-- State of the debounced buffer: `pendingUpdates` keyed by object id, and
the pending `flushTimer` deadline (`none` when no timer is scheduled). -/
structure DebState where
  pending : List (String × ObjUpdate) := []
  deadline : Option Int := none
deriving DecidableEq, Repr

/-- `flushPendingUpdates` (part_002 lines 32–37): an empty buffer writes
nothing; otherwise the whole buffer goes out as one `updateObjects` batch
and is cleared. -/
def debFlush (s : DebState) : DebState × List RemoteWrite :=
  if s.pending = [] then ({ pending := [], deadline := none }, [])
  else ({ pending := [], deadline := none }, [RemoteWrite.batch s.pending])

/-- The flush timer fires before an event at time `t` exactly when its
deadline has passed; a later call would otherwise have cleared it. -/
def fireIfDue (s : DebState) (t : Int) : DebState × List RemoteWrite :=
  match s.deadline with
  | some d => if d ≤ t then debFlush s else (s, [])
  | none => (s, [])

/-- `debouncedUpdate` (part_002 lines 39–43): merge into the per-id buffer
entry (`\x7b ...(pending.get(id) || \x7b\x7d), ...updates \x7d`), clear any
running timer and schedule the flush 50ms out. -/
def debCall (s : DebState) (t : Int) (id : String) (u : ObjUpdate) :
    DebState :=
  { pending := setA id (mergeUpd ((getA id s.pending).getD {}) u) s.pending
    deadline := some (t + 50) }

/-- One `handleObjectUpdate` event (part_002 lines 75–85) at time `t`:
any due timer fires first, then geometry-only payloads go through the
debounced buffer and content payloads write immediately. -/
def updStep (s : DebState) (t : Int) (id : String) (u : ObjUpdate) :
    DebState × List RemoteWrite :=
  let (s1, w) := fireIfDue s t
  if isPositionUpdate u then (debCall s1 t id u, w)
  else (s1, w ++ [RemoteWrite.single id u t])

/-- Run a time-ordered list of `handleObjectUpdate` events from a buffer
state, collecting the remote writes; after the last event the remaining
timer fires and flushes whatever is buffered. -/
def runUpdatesFrom : DebState → List (Int × String × ObjUpdate) →
    List RemoteWrite
  | s, [] => (debFlush s).2
  | s, (t, id, u) :: rest =>
    let (s1, w) := updStep s t id u
    w ++ runUpdatesFrom s1 rest

/-- Run `handleObjectUpdate` events from the initial (empty, no timer)
buffer. -/
def runUpdates (events : List (Int × String × ObjUpdate)) :
    List RemoteWrite :=
  runUpdatesFrom {} events

/-! ## Cursor throttle and snapshots (`useCursors.ts`) -/

/-- One `updateCursor` call (lines 49–65): with `last` the stored
`throttleRef` value and `now` the call time, a call less than 50ms after
the last accepted one returns without writing; otherwise `throttleRef` is
set to `now` and the cursor document is written. -/
def cursorStep (last now : Int) : Int × Bool :=
  if now - last < 50 then (last, false) else (now, true)

/-- Run `updateCursor` calls at the given times from a `throttleRef`
value, returning the times at which remote writes occur. -/
def runCursorCallsFrom : Int → List Int → List Int
  | _, [] => []
  | last, t :: rest =>
    let s := cursorStep last t
    if s.2 then t :: runCursorCallsFrom s.1 rest
    else runCursorCallsFrom s.1 rest

/-- Run `updateCursor` calls from the initial `throttleRef` of `0`. -/
def runCursorCalls (times : List Int) : List Int :=
  runCursorCallsFrom 0 times

/-- `CursorData` (`useCursors.ts` lines 5–13). -/
structure CursorData where
  userId : String
  displayName : String
  photoURL : Option String := none
  x : Int
  y : Int
  color : String
  lastUpdated : Int
deriving DecidableEq, Repr

/-- One entry of `snapshot.docChanges()`: `added` and `modified` act
identically (upsert), `removed` deletes by document id. -/
inductive CursorChange
  | upsert (docId : String) (data : CursorData)
  | removed (docId : String)
deriving DecidableEq, Repr

abbrev CursorMap := List (String × CursorData)

/-- The per-change body of the `useCursors` snapshot handler
(lines 25–35): upserts are dropped when the payload's `userId` is the
local user's; removals delete the key. -/
def applyCursorChange (uid : String) (m : CursorMap) :
    CursorChange → CursorMap
  | .upsert docId data =>
    if data.userId ≠ uid then setA docId data m else m
  | .removed docId => m.filter (fun kv => kv.1 ≠ docId)

/-- The stale sweep (lines 36–42): every entry with
`now - lastUpdated > 30000` is deleted, so an entry survives exactly when
`now - lastUpdated ≤ 30000`. -/
def cleanStale (now : Int) (m : CursorMap) : CursorMap :=
  m.filter (fun kv => decide (now - kv.2.lastUpdated ≤ 30000))

/-- One full snapshot delivery (lines 22–45): apply the changes in
delivered order, then sweep stale entries with `Date.now()` taken at
delivery time. -/
def applyCursorSnapshot (uid : String) (now : Int)
    (changes : List CursorChange) (prev : CursorMap) : CursorMap :=
  cleanStale now (changes.foldl (applyCursorChange uid) prev)

/-- Fold a sequence of snapshot deliveries (each with its delivery time)
over the initial empty cursor cache. -/
def runCursorSnapshots (uid : String)
    (deliveries : List (Int × List CursorChange)) : CursorMap :=
  deliveries.foldl (fun m d => applyCursorSnapshot uid d.1 d.2 m) []

/-! ## Presence (`usePresence`, useBoardObjects.ts lines 149–204) -/

/-- `PresenceUser` (lines 149–156). -/
structure PresenceUser where
  uid : String
  displayName : String
  photoURL : Option String := none
  color : String
  isOnline : Bool
  lastSeen : Int
deriving DecidableEq, Repr

/-- The `usePresence` snapshot handler (lines 193–204): a presence
document enters the returned user list exactly when
`now - lastSeen < 30000`. -/
def buildPresenceList (now : Int) (docs : List PresenceUser) :
    List PresenceUser :=
  docs.filter (fun d => decide (now - d.lastSeen < 30000))

/-! ## AI action executor (`executeAIActions`, part_002 lines 173–248) -/

/-- The loosely-typed `params` object of one AI instruction; each field is
optional except `objectId`, which the mutation actions read directly. -/
structure AIParams where
  x : Option Int := none
  y : Option Int := none
  width : Option Int := none
  height : Option Int := none
  color : Option String := none
  text : Option String := none
  title : Option String := none
  fontSize : Option Int := none
  type : Option String := none
  objectId : String := ""
  newText : Option String := none
  fromId : Option String := none
  toId : Option String := none
deriving DecidableEq, Repr

/-- The three accumulators of `executeAIActions`: `creates`, `updates`,
`deletes`, in instruction order. -/
structure AIExec where
  creates : List ObjCreate := []
  updates : List (String × ObjUpdate) := []
  deletes : List String := []
deriving DecidableEq, Repr

/-- The `switch` body of `executeAIActions` (lines 181–240) for one
`\x7b action, params \x7d` instruction, prepending its contribution to the
groups accumulated from the later instructions; an unrecognized action
falls through and contributes nothing. -/
def applyAIAction (a : String × AIParams) (e : AIExec) : AIExec :=
  let p := a.2
  match a.1 with
  | "createStickyNote" =>
    { e with creates :=
        { type := .stickyNote, x := some (p.x.getD 0), y := some (p.y.getD 0)
          width := some (p.width.getD 200), height := some (p.height.getD 200)
          color := some (p.color.getD "#FFEB3B")
          text := some (p.text.getD "") } :: e.creates }
  | "createShape" =>
    { e with creates :=
        { type := if p.type = some "circle" then .circle else .rectangle
          x := some (p.x.getD 0), y := some (p.y.getD 0)
          width := some (p.width.getD 200), height := some (p.height.getD 150)
          color := some (p.color.getD "#2196F3") } :: e.creates }
  | "createFrame" =>
    { e with creates :=
        { type := .frame, x := some (p.x.getD 0), y := some (p.y.getD 0)
          width := some (p.width.getD 400), height := some (p.height.getD 300)
          color := some (p.color.getD "#37474F")
          text := some (p.title.getD "Frame") } :: e.creates }
  | "createText" =>
    { e with creates :=
        { type := .text, x := some (p.x.getD 0), y := some (p.y.getD 0)
          width := some 300, height := some 50
          color := some (p.color.getD "#ffffff")
          text := some (p.text.getD "")
          fontSize := some (p.fontSize.getD 20) } :: e.creates }
  | "createConnector" =>
    { e with creates :=
        { type := .connector, x := some 0, y := some 0
          width := some 0, height := some 0
          color := some (p.color.getD "#ffffff")
          fromId := p.fromId, toId := p.toId } :: e.creates }
  | "moveObject" =>
    { e with updates := (p.objectId, { x := p.x, y := p.y }) :: e.updates }
  | "resizeObject" =>
    { e with updates :=
        (p.objectId, { width := p.width, height := p.height }) :: e.updates }
  | "updateText" =>
    { e with updates := (p.objectId, { text := p.newText }) :: e.updates }
  | "changeColor" =>
    { e with updates := (p.objectId, { color := p.color }) :: e.updates }
  | "deleteObject" => { e with deletes := p.objectId :: e.deletes }
  | _ => e

/-- `executeAIActions` (lines 173–240): the partition of the instruction
list into the three groups, in instruction order. -/
def executeAIActions : List (String × AIParams) → AIExec
  | [] => {}
  | a :: rest => applyAIAction a (executeAIActions rest)

/-- A sync-layer batch operation invocation. -/
inductive BatchCall
  | addObjects (objs : List ObjCreate)
  | updateObjects (entries : List (String × ObjUpdate))
  | deleteObjects (ids : List String)
deriving DecidableEq, Repr

/-- Lines 243–246: each non-empty group is applied through the
corresponding sync-layer batch operation; empty groups issue no call. -/
def aiBatchCalls (e : AIExec) : List BatchCall :=
  (if e.creates = [] then [] else [BatchCall.addObjects e.creates])
    ++ (if e.updates = [] then [] else [BatchCall.updateObjects e.updates])
    ++ (if e.deletes = [] then [] else [BatchCall.deleteObjects e.deletes])

/-- The ten-action catalogue named by the spec. -/
def aiCatalogue : List String :=
  ["createStickyNote", "createShape", "createFrame", "createText",
   "createConnector", "moveObject", "resizeObject", "updateText",
   "changeColor", "deleteObject"]

/-- Spec-side classifier for the creation group: which instructions the
spec says become typed create requests, and with which per-action
defaults.  Compared against the source-side `executeAIActions`. -/
def specCreateOf (a : String × AIParams) : Option ObjCreate :=
  let p := a.2
  match a.1 with
  | "createStickyNote" =>
    some { type := .stickyNote, x := some (p.x.getD 0), y := some (p.y.getD 0)
           width := some (p.width.getD 200), height := some (p.height.getD 200)
           color := some (p.color.getD "#FFEB3B")
           text := some (p.text.getD "") }
  | "createShape" =>
    some { type := if p.type = some "circle" then .circle else .rectangle
           x := some (p.x.getD 0), y := some (p.y.getD 0)
           width := some (p.width.getD 200), height := some (p.height.getD 150)
           color := some (p.color.getD "#2196F3") }
  | "createFrame" =>
    some { type := .frame, x := some (p.x.getD 0), y := some (p.y.getD 0)
           width := some (p.width.getD 400), height := some (p.height.getD 300)
           color := some (p.color.getD "#37474F")
           text := some (p.title.getD "Frame") }
  | "createText" =>
    some { type := .text, x := some (p.x.getD 0), y := some (p.y.getD 0)
           width := some 300, height := some 50
           color := some (p.color.getD "#ffffff")
           text := some (p.text.getD "")
           fontSize := some (p.fontSize.getD 20) }
  | "createConnector" =>
    some { type := .connector, x := some 0, y := some 0
           width := some 0, height := some 0
           color := some (p.color.getD "#ffffff")
           fromId := p.fromId, toId := p.toId }
  | _ => none

/-- Spec-side classifier for the update group:
`moveObject → \x7bx, y\x7d`, `resizeObject → \x7bwidth, height\x7d`,
`updateText → \x7btext\x7d`, `changeColor → \x7bcolor\x7d`. -/
def specUpdateOf (a : String × AIParams) : Option (String × ObjUpdate) :=
  let p := a.2
  match a.1 with
  | "moveObject" => some (p.objectId, { x := p.x, y := p.y })
  | "resizeObject" => some (p.objectId, { width := p.width, height := p.height })
  | "updateText" => some (p.objectId, { text := p.newText })
  | "changeColor" => some (p.objectId, { color := p.color })
  | _ => none

/-- Spec-side classifier for the deletion group: `deleteObject → id`. -/
def specDeleteOf (a : String × AIParams) : Option String :=
  match a.1 with
  | "deleteObject" => some a.2.objectId
  | _ => none

/-! ## Canvas-click creation defaults (`handleCanvasClick`, part_002
lines 51–73) -/

/-- The per-tool `defaults` table of `handleCanvasClick` (lines 55–62):
the documented per-type creation defaults, including the per-type color.
Tools without an entry (frame, connector) default to `\x7b\x7d`. -/
def toolDefaults : ObjType → ObjUpdate
  | .stickyNote =>
    { width := some 200, height := some 200, color := some "#FFEB3B"
      text := some "", fontSize := some 16 }
  | .rectangle => { width := some 200, height := some 150, color := some "#2196F3" }
  | .circle => { width := some 200, height := some 200, color := some "#4CAF50" }
  | .text =>
    { width := some 200, height := some 200, color := some "#ffffff"
      text := some "", fontSize := some 20 }
  | .line =>
    { width := some 200, height := some 0, color := some "#ffffff"
      points := some [0, 0, 200, 0], strokeWidth := some 3 }
  | .arrow =>
    { width := some 200, height := some 0, color := some "#ffffff"
      points := some [0, 0, 200, 0], strokeWidth := some 3 }
  | _ => {}

/-! ## Wheel zoom (`handleWheel`, part_003 lines 140–174) -/

/-- The Konva stage transform state: uniform scale and position. -/
structure StageState where
  scale : Rat
  x : Rat
  y : Rat
deriving DecidableEq, Repr

def MIN_ZOOM : Rat := 1 / 10

def MAX_ZOOM : Rat := 5

/-- The zoom branch of `handleWheel` (lines 146–165): compute the
board-space point under the pointer, scale by 1.03 in the wheel direction,
clamp to `[MIN_ZOOM, MAX_ZOOM]`, and reposition the stage so the pointer
keeps covering the same board point.  Numbers are embedded as rationals. -/
def handleWheelZoom (st : StageState) (pointer : Rat × Rat) (deltaY : Int) :
    StageState :=
  let oldScale := st.scale
  let mousePointTo : Rat × Rat :=
    ((pointer.1 - st.x) / oldScale, (pointer.2 - st.y) / oldScale)
  let scaleBy : Rat := 103 / 100
  let direction : Int := if deltaY > 0 then -1 else 1
  let newScale0 := if direction > 0 then oldScale * scaleBy else oldScale / scaleBy
  let newScale := max MIN_ZOOM (min MAX_ZOOM newScale0)
  { scale := newScale
    x := pointer.1 - mousePointTo.1 * newScale
    y := pointer.2 - mousePointTo.2 * newScale }

/-- Stage transform: board-space point to screen coordinates. -/
def toScreen (st : StageState) (p : Rat × Rat) : Rat × Rat :=
  (st.x + p.1 * st.scale, st.y + p.2 * st.scale)

/-- Inverse stage transform: screen coordinates to board space. -/
def toBoard (st : StageState) (q : Rat × Rat) : Rat × Rat :=
  ((q.1 - st.x) / st.scale, (q.2 - st.y) / st.scale)

/-! ## Concrete sample data (used by witness theorems) -/

/-- A concrete stored board object. -/
def sampleObj : BoardObject :=
  { id := "a", type := .stickyNote, x := 1, y := 2, width := 200
    height := 200, rotation := 0, text := some "hi", color := "#FFEB3B"
    fontSize := some 16, createdBy := "u1", createdAt := 0, updatedAt := 0
    fromId := none, toId := none, points := none }

/-- A concrete remote cursor document for user `alice`. -/
def sampleCursor : CursorData :=
  { userId := "alice", displayName := "Alice", x := 3, y := 4
    color := "#FF6B6B", lastUpdated := 990 }

/-- A concrete presence document for user `bob`. -/
def samplePresence : PresenceUser :=
  { uid := "bob", displayName := "Bob", color := "#4ECDC4"
    isOnline := true, lastSeen := 980 }

/-! ## Helper lemmas -/

theorem getA_setA_self (k : String) (v : α) (m : List (String × α)) :
    getA k (setA k v m) = some v := by
  induction m with
  | nil => simp [setA, getA]
  | cons kv rest ih =>
    by_cases h : kv.1 = k
    · simpa [setA, h] using ih
    · simpa [setA, getA, h] using ih

theorem mergeUpd_empty (u : ObjUpdate) : mergeUpd {} u = u := by
  simp [mergeUpd]

/-! ## Claim theorems -/

/-- **C1.** For every object id and every `update(id, partialFields)` call
on an existing document, the resulting stored object is the named fields
of the payload merged over the prior state: every field present in the
payload takes its new value, every absent field keeps its previous value,
`updatedAt` is stamped to the current time, and the identity fields
(id, type, createdBy, createdAt) are untouched — a partial merge, not a
replace. -/
theorem updateObject_merges_fields (s : ObjStore) (id : String)
    (u : ObjUpdate) (now : Int) (o : BoardObject)
    (h : getA id s = some o) :
    ∃ s2 r, updateObject s id u now = some s2 ∧
      getA id s2 = some r ∧
      r = mergeDoc o (stampPayload u now) ∧
      r.updatedAt = now ∧
      (∀ v, u.x = some v → r.x = v) ∧ (u.x = none → r.x = o.x) ∧
      (∀ v, u.y = some v → r.y = v) ∧ (u.y = none → r.y = o.y) ∧
      (∀ v, u.width = some v → r.width = v) ∧
      (u.width = none → r.width = o.width) ∧
      (∀ v, u.height = some v → r.height = v) ∧
      (u.height = none → r.height = o.height) ∧
      (∀ v, u.rotation = some v → r.rotation = v) ∧
      (u.rotation = none → r.rotation = o.rotation) ∧
      (∀ v, u.text = some v → r.text = some v) ∧
      (u.text = none → r.text = o.text) ∧
      (∀ v, u.color = some v → r.color = v) ∧
      (u.color = none → r.color = o.color) ∧
      (∀ v, u.fontSize = some v → r.fontSize = some v) ∧
      (u.fontSize = none → r.fontSize = o.fontSize) ∧
      (∀ v, u.points = some v → r.points = some v) ∧
      (u.points = none → r.points = o.points) ∧
      r.id = o.id ∧ r.type = o.type ∧ r.createdBy = o.createdBy ∧
      r.createdAt = o.createdAt ∧ r.fromId = o.fromId ∧ r.toId = o.toId := by
  have hu : updateObject s id u now
      = some (setA id (mergeDoc o (stampPayload u now)) s) := by
    simp [updateObject, h]
  refine ⟨_, mergeDoc o (stampPayload u now), hu, getA_setA_self _ _ _,
    rfl, ?_⟩
  unfold mergeDoc stampPayload
  and_intros <;> intros <;> simp_all

/-- Witness for C1: updating the sample store at id `"a"` with
`\x7b x: 7 \x7d` at time 99 stores `x = 7`, keeps `y = 2`, and stamps
`updatedAt = 99`. -/
theorem updateObject_merges_fields_witness :
    getA "a" [("a", sampleObj)] = some sampleObj ∧
    ∃ s2 r, updateObject [("a", sampleObj)] "a" { x := some 7 } 99 = some s2 ∧
      getA "a" s2 = some r ∧ r.x = 7 ∧ r.y = sampleObj.y ∧
      r.updatedAt = 99 := by
  have h0 : getA "a" [("a", sampleObj)] = some sampleObj := by decide
  obtain ⟨s2, r, h1, h2, -, h4, h5, -, -, h8, rest⟩ :=
    updateObject_merges_fields [("a", sampleObj)] "a" { x := some 7 } 99
      sampleObj h0
  exact ⟨h0, s2, r, h1, h2, h5 7 rfl, h8 rfl, h4⟩

/-- **C7.** Applying the same `update(id, \x7bx: 5, y: 5\x7d)` twice yields
the same final geometry (x, y, width, height, rotation) as applying it
once; only `updatedAt` differs, and it is later after the second
application. -/
theorem update_xy_idempotent (s : ObjStore) (id : String) (t1 t2 : Int)
    (o : BoardObject) (h : getA id s = some o) (hlt : t1 < t2) :
    ∃ s1 o1 s2 o2,
      updateObject s id { x := some 5, y := some 5 } t1 = some s1 ∧
      getA id s1 = some o1 ∧
      updateObject s1 id { x := some 5, y := some 5 } t2 = some s2 ∧
      getA id s2 = some o2 ∧
      o2.x = o1.x ∧ o2.y = o1.y ∧ o2.width = o1.width ∧
      o2.height = o1.height ∧ o2.rotation = o1.rotation ∧
      o1.updatedAt < o2.updatedAt := by
  set u : ObjUpdate := { x := some 5, y := some 5 } with hu
  set r1 := mergeDoc o (stampPayload u t1) with hr1
  have h1 : updateObject s id u t1 = some (setA id r1 s) := by
    simp [updateObject, h, hr1]
  have hg1 : getA id (setA id r1 s) = some r1 := getA_setA_self _ _ _
  set r2 := mergeDoc r1 (stampPayload u t2) with hr2
  have h2 : updateObject (setA id r1 s) id u t2
      = some (setA id r2 (setA id r1 s)) := by
    simp [updateObject, hg1, hr2]
  refine ⟨_, r1, _, r2, h1, hg1, h2, getA_setA_self _ _ _, ?_, ?_, ?_, ?_,
    ?_, ?_⟩ <;>
    simp [hr1, hr2, hu, mergeDoc, stampPayload, hlt]

/-- Witness for C7: the double update of the sample store at `t1 = 10`,
`t2 = 20` keeps the geometry of the single update and raises
`updatedAt`. -/
theorem update_xy_idempotent_witness :
    getA "a" [("a", sampleObj)] = some sampleObj ∧ (10 : Int) < 20 ∧
    ∃ s1 o1 s2 o2,
      updateObject [("a", sampleObj)] "a" { x := some 5, y := some 5 } 10
        = some s1 ∧
      getA "a" s1 = some o1 ∧
      updateObject s1 "a" { x := some 5, y := some 5 } 20 = some s2 ∧
      getA "a" s2 = some o2 ∧
      o2.x = o1.x ∧ o2.y = o1.y ∧ o2.width = o1.width ∧
      o2.height = o1.height ∧ o2.rotation = o1.rotation ∧
      o1.updatedAt < o2.updatedAt :=
  ⟨by decide, by decide,
    update_xy_idempotent [("a", sampleObj)] "a" 10 20 sampleObj
      (by decide) (by decide)⟩

/-- **C2 counterexample.** The claim says a create call that omits `color`
yields the per-type documented default color.  The sync-layer create
defaults `color` to the fixed `#FFEB3B` for every type: a `rectangle`
created with `color` omitted gets `#FFEB3B`, while the rectangle's
documented per-type default (the `handleCanvasClick` defaults table) is
`#2196F3`. -/
theorem create_color_not_per_type :
    (buildFullObj { type := ObjType.rectangle } "u" 0 "fresh").color
        = "#FFEB3B" ∧
    (toolDefaults ObjType.rectangle).color = some "#2196F3" ∧
    ("#FFEB3B" : String) ≠ "#2196F3" :=
  ⟨rfl, rfl, by decide⟩

/-- **C2 (amended).** For every create call: each omitted defaultable
field gets its fixed default — width 200, height 200, rotation 0,
fontSize 16, and color the fixed `#FFEB3B` (the sticky-note type's
documented default; per-type colors for other types are supplied by the
canvas-click caller, not by create) — `createdBy`/`createdAt`/`updatedAt`
are stamped, the document is keyed by the caller-supplied nonempty id or
else the freshly generated token, that id is returned, and the stored
document at the returned id is the built object. -/
theorem addObject_fixed_defaults (s : ObjStore) (req : ObjCreate)
    (userId : String) (now : Int) (freshId : String)
    (hf : freshId ≠ "") :
    (req.width = none → (buildFullObj req userId now freshId).width = 200) ∧
    (req.height = none → (buildFullObj req userId now freshId).height = 200) ∧
    (req.rotation = none →
      (buildFullObj req userId now freshId).rotation = 0) ∧
    (req.fontSize = none →
      (buildFullObj req userId now freshId).fontSize = some 16) ∧
    (req.color = none →
      (buildFullObj req userId now freshId).color = "#FFEB3B") ∧
    (buildFullObj req userId now freshId).createdBy = userId ∧
    (buildFullObj req userId now freshId).createdAt = now ∧
    (buildFullObj req userId now freshId).updatedAt = now ∧
    (req.id = none → (addObject s req userId now freshId).2 = freshId) ∧
    (∀ cid, cid ≠ "" → req.id = some cid →
      (addObject s req userId now freshId).2 = cid) ∧
    getA (addObject s req userId now freshId).2
        (addObject s req userId now freshId).1
      = some (buildFullObj req userId now freshId) := by
  refine ⟨?_, ?_, ?_, ?_, ?_, rfl, rfl, rfl, ?_, ?_, ?_⟩
  · intro hw; simp [buildFullObj, hw]
  · intro hh; simp [buildFullObj, hh]
  · intro hr; simp [buildFullObj, hr]
  · intro hfs; simp [buildFullObj, hfs]
  · intro hc; simp [buildFullObj, hc]
  · intro hid; simp [addObject, buildFullObj, hid]
  · intro cid hcid hid; simp [addObject, buildFullObj, hid, hcid]
  · exact getA_setA_self _ _ _

/-- Witness for C2: a sticky-note create with everything omitted gets
width 200, height 200, rotation 0, fontSize 16, color `#FFEB3B` (the
sticky-note documented default), stamps, is stored under the fresh id
`"f1"`, and returns it. -/
theorem addObject_fixed_defaults_witness :
    ("f1" : String) ≠ "" ∧
    (buildFullObj { type := ObjType.stickyNote } "u" 5 "f1").width = 200 ∧
    (buildFullObj { type := ObjType.stickyNote } "u" 5 "f1").height = 200 ∧
    (buildFullObj { type := ObjType.stickyNote } "u" 5 "f1").rotation = 0 ∧
    (buildFullObj { type := ObjType.stickyNote } "u" 5 "f1").fontSize
        = some 16 ∧
    (buildFullObj { type := ObjType.stickyNote } "u" 5 "f1").color
        = "#FFEB3B" ∧
    (addObject [] { type := ObjType.stickyNote } "u" 5 "f1").2 = "f1" ∧
    getA (addObject [] { type := ObjType.stickyNote } "u" 5 "f1").2
        (addObject [] { type := ObjType.stickyNote } "u" 5 "f1").1
      = some (buildFullObj { type := ObjType.stickyNote } "u" 5 "f1") := by
  have h := addObject_fixed_defaults [] { type := ObjType.stickyNote }
    "u" 5 "f1" (by decide)
  exact ⟨by decide, h.1 rfl, h.2.1 rfl, h.2.2.1 rfl, h.2.2.2.1 rfl,
    h.2.2.2.2.1 rfl, h.2.2.2.2.2.2.2.2.1 rfl, h.2.2.2.2.2.2.2.2.2.2⟩

/-- **C3.** Two geometry-only updates to the same object id arriving
within 50ms of each other produce exactly one remote batch write for that
id, carrying the union of the changed fields with the most recent value
for each field (the second payload wins field-wise, fields only in the
first survive), not two separate writes. -/
theorem debounce_single_batch (t1 t2 : Int) (id : String)
    (u1 u2 : ObjUpdate) (h12 : t1 ≤ t2) (hwin : t2 < t1 + 50)
    (hp1 : isPositionUpdate u1 = true) (hp2 : isPositionUpdate u2 = true) :
    runUpdates [(t1, id, u1), (t2, id, u2)]
        = [RemoteWrite.batch [(id, mergeUpd u1 u2)]] ∧
    (∀ v, u2.x = some v → (mergeUpd u1 u2).x = some v) ∧
    (u2.x = none → (mergeUpd u1 u2).x = u1.x) ∧
    (∀ v, u2.y = some v → (mergeUpd u1 u2).y = some v) ∧
    (u2.y = none → (mergeUpd u1 u2).y = u1.y) ∧
    (∀ v, u2.width = some v → (mergeUpd u1 u2).width = some v) ∧
    (u2.width = none → (mergeUpd u1 u2).width = u1.width) ∧
    (∀ v, u2.height = some v → (mergeUpd u1 u2).height = some v) ∧
    (u2.height = none → (mergeUpd u1 u2).height = u1.height) ∧
    (∀ v, u2.rotation = some v → (mergeUpd u1 u2).rotation = some v) ∧
    (u2.rotation = none → (mergeUpd u1 u2).rotation = u1.rotation) := by
  have hdue : ¬ (t1 + 50 ≤ t2) := by omega
  constructor
  · simp [runUpdates, runUpdatesFrom, updStep, fireIfDue, debCall, debFlush,
      setA, getA, hp1, hp2, hdue, mergeUpd_empty]
  · unfold mergeUpd
    and_intros <;> intros <;> simp_all

/-- Witness for C3: geometry updates `\x7bx:1\x7d` at `t=100` and
`\x7by:2, x:3\x7d` at `t=130` to id `"a"` flush as the single batch
`[("a", \x7bx:3, y:2\x7d)]`. -/
theorem debounce_single_batch_witness :
    (100 : Int) ≤ 130 ∧ (130 : Int) < 100 + 50 ∧
    isPositionUpdate { x := some 1 } = true ∧
    isPositionUpdate { x := some 3, y := some 2 } = true ∧
    runUpdates [(100, "a", { x := some 1 }),
        (130, "a", { x := some 3, y := some 2 })]
      = [RemoteWrite.batch [("a",
          mergeUpd { x := some 1 } { x := some 3, y := some 2 })]] ∧
    mergeUpd { x := some 1 } { x := some 3, y := some 2 }
      = { x := some 3, y := some 2 } :=
  ⟨by decide, by decide, by decide, by decide,
    (debounce_single_batch 100 130 "a" { x := some 1 }
      { x := some 3, y := some 2 } (by decide) (by decide) (by decide)
      (by decide)).1,
    by decide⟩

/-- **C4.** The cursor publisher is a leading-edge 50ms throttle: for
cursor-move calls at `t = T`, `T+10`, `T+60` (with the throttle reference
at its initial 0 and `T` at least 50ms past it), exactly two remote
writes occur — at `T` and `T+60` — and the `T+10` call is dropped, not
queued. -/
theorem cursor_throttle_law (T : Int) (h : 50 ≤ T) :
    runCursorCalls [T, T + 10, T + 60] = [T, T + 60] := by
  have h1 : ¬ (T < 50) := by omega
  have h2 : T + 10 - T < 50 := by omega
  have h3 : ¬ (T + 60 - T < 50) := by omega
  simp [runCursorCalls, runCursorCallsFrom, cursorStep, h1, h2, h3]

/-- Witness for C4: calls at 100, 110, 160 write exactly at 100 and
160. -/
theorem cursor_throttle_law_witness :
    (50 : Int) ≤ 100 ∧
    runCursorCalls [100, 100 + 10, 100 + 60] = [100, 100 + 60] :=
  ⟨by decide, cursor_throttle_law 100 (by decide)⟩

theorem mem_setA {α : Type} (k2 : String) (v : α) (m : List (String × α))
    (kc : String × α) (h : kc ∈ setA k2 v m) : kc = (k2, v) ∨ kc ∈ m := by
  unfold setA at h
  rcases List.mem_append.1 h with h | h
  · exact Or.inr (List.mem_filter.1 h).1
  · simp only [List.mem_singleton] at h
    exact Or.inl h

theorem applyCursorChange_inv (uid : String) (m : CursorMap)
    (ch : CursorChange) (hm : ∀ kc ∈ m, kc.2.userId ≠ uid) :
    ∀ kc ∈ applyCursorChange uid m ch, kc.2.userId ≠ uid := by
  intro kc hkc
  cases ch with
  | upsert docId data =>
    simp only [applyCursorChange] at hkc
    by_cases hd : data.userId ≠ uid
    · rw [if_pos hd] at hkc
      rcases mem_setA docId data m kc hkc with h | h
      · rw [h]; exact hd
      · exact hm _ h
    · rw [if_neg hd] at hkc
      exact hm _ hkc
  | removed docId =>
    simp only [applyCursorChange] at hkc
    exact hm _ (List.mem_filter.1 hkc).1

theorem cursorFold_inv (uid : String) (changes : List CursorChange) :
    ∀ m : CursorMap, (∀ kc ∈ m, kc.2.userId ≠ uid) →
      ∀ kc ∈ changes.foldl (applyCursorChange uid) m, kc.2.userId ≠ uid := by
  induction changes with
  | nil => intro m hm; simpa using hm
  | cons ch rest ih =>
    intro m hm
    exact ih _ (applyCursorChange_inv uid m ch hm)

theorem applyCursorSnapshot_inv (uid : String) (now : Int)
    (changes : List CursorChange) (prev : CursorMap)
    (hm : ∀ kc ∈ prev, kc.2.userId ≠ uid) :
    ∀ kc ∈ applyCursorSnapshot uid now changes prev, kc.2.userId ≠ uid := by
  intro kc hkc
  unfold applyCursorSnapshot cleanStale at hkc
  exact cursorFold_inv uid changes prev hm _ (List.mem_filter.1 hkc).1

/-- **C5.** A cursor entry whose `lastUpdated` is older than 30,000ms
relative to the snapshot delivery time never appears in the cursor cache
produced by a snapshot delivery, and a presence entry whose `lastSeen` is
older than 30,000ms never appears in the returned user list — regardless
of whether the remote store has deleted the underlying document (staleness
is enforced locally by the handlers themselves). -/
theorem staleness_exclusion :
    (∀ (uid : String) (now : Int) (changes : List CursorChange)
        (prev : CursorMap) (k : String) (c : CursorData),
      (k, c) ∈ applyCursorSnapshot uid now changes prev →
        ¬ (30000 < now - c.lastUpdated)) ∧
    (∀ (now : Int) (docs : List PresenceUser) (d : PresenceUser),
      d ∈ buildPresenceList now docs → ¬ (30000 < now - d.lastSeen)) := by
  constructor
  · intro uid now changes prev k c hmem
    unfold applyCursorSnapshot cleanStale at hmem
    have := (List.mem_filter.1 hmem).2
    simp only [decide_eq_true_eq] at this
    omega
  · intro now docs d hmem
    unfold buildPresenceList at hmem
    have := (List.mem_filter.1 hmem).2
    simp only [decide_eq_true_eq] at this
    omega

/-- Witness for C5: user `alice`'s fresh cursor survives a snapshot at
`now = 1000` and is indeed not stale; `bob`'s fresh presence document is
listed and not stale. -/
theorem staleness_exclusion_witness :
    (("a", sampleCursor) ∈
        applyCursorSnapshot "me" 1000 [CursorChange.upsert "a" sampleCursor]
          [] ∧
      ¬ (30000 < (1000 : Int) - sampleCursor.lastUpdated)) ∧
    (samplePresence ∈ buildPresenceList 1000 [samplePresence] ∧
      ¬ (30000 < (1000 : Int) - samplePresence.lastSeen)) :=
  ⟨⟨by decide,
      staleness_exclusion.1 "me" 1000 [CursorChange.upsert "a" sampleCursor]
        [] "a" sampleCursor (by decide)⟩,
    ⟨by decide,
      staleness_exclusion.2 1000 [samplePresence] samplePresence
        (by decide)⟩⟩

/-- **C9.** After every sequence of snapshot deliveries applied to the
(initially empty) local cursor cache, the cache never contains an entry
whose `userId` equals the local user's id: the local user's own published
cursor is filtered out on every added/modified change. -/
theorem own_cursor_never_listed (uid : String)
    (deliveries : List (Int × List CursorChange)) (k : String)
    (c : CursorData) (h : (k, c) ∈ runCursorSnapshots uid deliveries) :
    c.userId ≠ uid := by
  suffices hgen : ∀ (ds : List (Int × List CursorChange)) (m : CursorMap),
      (∀ kc ∈ m, kc.2.userId ≠ uid) →
      ∀ kc ∈ ds.foldl (fun m d => applyCursorSnapshot uid d.1 d.2 m) m,
        kc.2.userId ≠ uid by
    exact hgen deliveries [] (by simp) (k, c) h
  intro ds
  induction ds with
  | nil => intro m hm; simpa using hm
  | cons d rest ih =>
    intro m hm
    exact ih _ (applyCursorSnapshot_inv uid d.1 d.2 m hm)

/-- Witness for C9: after one delivery upserting `alice`'s cursor, her
entry is present in `me`'s cache and its `userId` differs from `"me"`. -/
theorem own_cursor_never_listed_witness :
    ("a", sampleCursor) ∈
        runCursorSnapshots "me" [(1000, [CursorChange.upsert "a" sampleCursor])] ∧
      sampleCursor.userId ≠ "me" :=
  ⟨by decide,
    own_cursor_never_listed "me"
      [(1000, [CursorChange.upsert "a" sampleCursor])] "a" sampleCursor
      (by decide)⟩

theorem applyAIAction_classified (a : String × AIParams) (e : AIExec) :
    applyAIAction a e
      = { creates := (specCreateOf a).toList ++ e.creates
          updates := (specUpdateOf a).toList ++ e.updates
          deletes := (specDeleteOf a).toList ++ e.deletes } := by
  obtain ⟨name, p⟩ := a
  unfold applyAIAction specCreateOf specUpdateOf specDeleteOf
  split <;> simp_all

/-- **C6.** The executor partitions every AI instruction list into exactly
three groups — creations (`createStickyNote`/`createShape`/`createFrame`/
`createText`/`createConnector`, mapped to typed create requests with the
per-action parameter defaults), updates (`moveObject → \x7bx, y\x7d`,
`resizeObject → \x7bwidth, height\x7d`, `updateText → \x7btext\x7d`,
`changeColor → \x7bcolor\x7d`), and deletions (`deleteObject → id`) — and
applies each non-empty group through the sync layer's corresponding batch
operation. -/
theorem ai_actions_partition (actions : List (String × AIParams)) :
    executeAIActions actions
        = { creates := actions.filterMap specCreateOf
            updates := actions.filterMap specUpdateOf
            deletes := actions.filterMap specDeleteOf } ∧
    aiBatchCalls (executeAIActions actions)
        = (if actions.filterMap specCreateOf = [] then []
            else [BatchCall.addObjects (actions.filterMap specCreateOf)])
          ++ (if actions.filterMap specUpdateOf = [] then []
            else [BatchCall.updateObjects (actions.filterMap specUpdateOf)])
          ++ (if actions.filterMap specDeleteOf = [] then []
            else [BatchCall.deleteObjects (actions.filterMap specDeleteOf)]) := by
  have h1 : executeAIActions actions
      = { creates := actions.filterMap specCreateOf
          updates := actions.filterMap specUpdateOf
          deletes := actions.filterMap specDeleteOf } := by
    induction actions with
    | nil => rfl
    | cons a rest ih =>
      show applyAIAction a (executeAIActions rest) = _
      rw [ih, applyAIAction_classified]
      cases hc : specCreateOf a <;> cases hu : specUpdateOf a <;>
        cases hd : specDeleteOf a <;>
        simp [List.filterMap_cons, hc, hu, hd]
  exact ⟨h1, by rw [h1]; rfl⟩

theorem applyAIAction_unknown (a : String × AIParams) (e : AIExec)
    (h : a.1 ∉ aiCatalogue) : applyAIAction a e = e := by
  obtain ⟨name, p⟩ := a
  simp only [aiCatalogue, List.mem_insert_iff, List.mem_cons,
    List.mem_singleton, not_or] at h
  unfold applyAIAction
  split <;> simp_all

/-- **C10.** An AI instruction whose action name is outside the ten-item
catalogue contributes no board mutation and raises no error: it is
silently skipped, and the remaining recognized instructions produce
exactly the partition they would produce without it. -/
theorem ai_unknown_action_skipped (name : String) (p : AIParams)
    (l1 l2 : List (String × AIParams)) (h : name ∉ aiCatalogue) :
    executeAIActions (l1 ++ (name, p) :: l2)
      = executeAIActions (l1 ++ l2) := by
  induction l1 with
  | nil =>
    show applyAIAction (name, p) (executeAIActions l2) = executeAIActions l2
    exact applyAIAction_unknown (name, p) _ h
  | cons a rest ih =>
    show applyAIAction a (executeAIActions (rest ++ (name, p) :: l2))
        = applyAIAction a (executeAIActions (rest ++ l2))
    rw [ih]

/-- Witness for C10: the unrecognized action `"explodeBoard"` is skipped
while the surrounding `createStickyNote` is still applied. -/
theorem ai_unknown_action_skipped_witness :
    ("explodeBoard" : String) ∉ aiCatalogue ∧
    executeAIActions [("createStickyNote", {}), ("explodeBoard", {})]
      = executeAIActions [("createStickyNote", {})] :=
  ⟨by decide,
    ai_unknown_action_skipped "explodeBoard" {} [("createStickyNote", {})]
      [] (by decide)⟩

/-- **C8.** After every wheel-zoom step the stage scale lies within
`[0.1, 5]`, and the zoom is anchored at the pointer: the board-space
point under the cursor before the step (which the current transform maps
to the pointer's screen position) maps to the same screen position after
the step.  Numbers are embedded as exact rationals. -/
theorem wheel_zoom_clamped_anchored (st : StageState)
    (pointer : Rat × Rat) (deltaY : Int) (hlo : MIN_ZOOM ≤ st.scale)
    (hhi : st.scale ≤ MAX_ZOOM) :
    MIN_ZOOM ≤ (handleWheelZoom st pointer deltaY).scale ∧
    (handleWheelZoom st pointer deltaY).scale ≤ MAX_ZOOM ∧
    toScreen st (toBoard st pointer) = pointer ∧
    toScreen (handleWheelZoom st pointer deltaY) (toBoard st pointer)
      = pointer := by
  have hne : st.scale ≠ 0 := by
    have h0 : (0 : Rat) < MIN_ZOOM := by norm_num [MIN_ZOOM]
    exact ne_of_gt (lt_of_lt_of_le h0 hlo)
  refine ⟨?_, ?_, ?_, ?_⟩
  · simp only [handleWheelZoom]
    exact le_max_left _ _
  · simp only [handleWheelZoom]
    exact max_le (by norm_num [MIN_ZOOM, MAX_ZOOM]) (min_le_left _ _)
  · unfold toScreen toBoard
    rw [Prod.ext_iff]
    constructor <;> · dsimp only; field_simp
  · unfold handleWheelZoom toScreen toBoard
    rw [Prod.ext_iff]
    constructor <;> · dsimp only; ring

/-- Witness for C8: a wheel step at scale 1 with the pointer at
`(10, 20)` keeps the scale in range and leaves the board point under the
pointer at screen position `(10, 20)`. -/
theorem wheel_zoom_clamped_anchored_witness :
    MIN_ZOOM ≤ (StageState.mk 1 0 0).scale ∧
    (StageState.mk 1 0 0).scale ≤ MAX_ZOOM ∧
    (MIN_ZOOM ≤ (handleWheelZoom ⟨1, 0, 0⟩ (10, 20) 5).scale ∧
      (handleWheelZoom ⟨1, 0, 0⟩ (10, 20) 5).scale ≤ MAX_ZOOM ∧
      toScreen ⟨1, 0, 0⟩ (toBoard ⟨1, 0, 0⟩ (10, 20)) = (10, 20) ∧
      toScreen (handleWheelZoom ⟨1, 0, 0⟩ (10, 20) 5)
          (toBoard ⟨1, 0, 0⟩ (10, 20))
        = (10, 20)) :=
  ⟨by norm_num [MIN_ZOOM], by norm_num [MAX_ZOOM],
    wheel_zoom_clamped_anchored ⟨1, 0, 0⟩ (10, 20) 5
      (by norm_num [MIN_ZOOM]) (by norm_num [MAX_ZOOM])⟩

end CollabBoard
